import Mathlib

/-!
Verification of the session-orchestration layer of the StreamDiffusionV2 demo
server (`src/StreamDiffusionV2/demo/connection_manager.py` and
`src/StreamDiffusionV2/demo/main.py`), shallowly embedded in Lean.

Modelling conventions:
* `asyncio.Queue` contents are Lean lists (head = next element `get` returns);
  `maxsize = 0` means unbounded, exactly as in asyncio.
* An `await` that would suspend forever on an empty queue is modelled by an
  `Option`/dedicated constructor result rather than by a value.
* The registry `active_connections : Dict[UUID, ...]` is an association list
  keyed by `Nat` (uuids are opaque ids).
* Float arithmetic of the pacer/metrics code is modelled over `ℚ`.
-/

namespace StreamDiffusion

/-- One session record, mirroring the dict that
`ConnectionManager.connect` builds (connection_manager.py lines 36-46). -/
structure Session (α : Type) where
  websocket : Nat
  ws_connected : Bool
  queue : List α
  output_queue : List α
  output_maxsize : Nat
  video_frame_queue : List α
  video_frames : List α
  is_upload_mode : Bool
  video_upload_completed : Bool
  video_queue_index : Nat
  video_total_frames : Nat
  deriving Repr, DecidableEq

/-- The registry `self.active_connections` as an association list. -/
abbrev ConnMgr (α : Type) : Type := List (Nat × Session α)

/-- `self.active_connections.get(user_id)`. -/
def getSession {α : Type} : ConnMgr α → Nat → Option (Session α)
  | [], _ => none
  | (k, s) :: rest, uid => if k = uid then some s else getSession rest uid

/-- `self.active_connections[user_id] = session` (dict assignment:
replace the entry if the key exists, otherwise add it). -/
def setSession {α : Type} : ConnMgr α → Nat → Session α → ConnMgr α
  | [], uid, s => [(uid, s)]
  | (k, t) :: rest, uid, s =>
      if k = uid then (uid, s) :: rest else (k, t) :: setSession rest uid s

/-- `self.get_user_count()` = `len(self.active_connections)`. -/
def get_user_count {α : Type} (m : ConnMgr α) : Nat := m.length

/-! ### asyncio queue primitives -/

/-- `queue.full()`: true iff the queue is bounded (`maxsize > 0`) and holds at
least `maxsize` items. -/
def queue_full {α : Type} (maxsize : Nat) (q : List α) : Bool :=
  decide (0 < maxsize ∧ maxsize ≤ q.length)

/-- `await queue.put(v)`: `none` when the call would suspend (queue full),
otherwise the queue with `v` appended. -/
def queue_put {α : Type} (maxsize : Nat) (q : List α) (v : α) :
    Option (List α) :=
  if queue_full maxsize q then none else some (q ++ [v])

/-- One iteration of the loop body of
`ConnectionManager.put_frames_to_output_queue` (lines 165-171): if the queue
is full, `get_nowait()` evicts the head (a `QueueEmpty` is swallowed), then
the frame is `put`. -/
def pushFrameDrop {α : Type} (maxsize : Nat) (q : List α) (f : α) :
    Option (List α) :=
  queue_put maxsize (if queue_full maxsize q then q.tail else q) f

/-- The whole `for frame in frames` loop of `put_frames_to_output_queue`;
`none` means some `put` inside the loop would have suspended the writer. -/
def put_frames_list {α : Type} (maxsize : Nat) (q : List α) :
    List α → Option (List α)
  | [] => some q
  | f :: fs =>
      (pushFrameDrop maxsize q f).bind fun q' => put_frames_list maxsize q' fs

/-! ### ConnectionManager operations -/

/-- Messages `connect` writes to the websocket, in order. -/
inductive WsMsg where
  | accept
  | errorServerFull
  | closeTransport
  | connected
  | waitMsg
  | send_frame
  deriving Repr, DecidableEq

/-- Result of `ConnectionManager.connect`: whether `ServerFullException` was
raised, the registry afterwards, and the transport interactions in order. -/
structure ConnectResult (α : Type) where
  raised : Bool
  state : ConnMgr α
  events : List WsMsg

/-- The session dict built at connection_manager.py lines 36-46: every queue
is a fresh unbounded `asyncio.Queue()`, buffers empty, flags false,
counters zero. -/
def freshSession {α : Type} (wsId : Nat) : Session α where
  websocket := wsId
  ws_connected := true
  queue := []
  output_queue := []
  output_maxsize := 0
  video_frame_queue := []
  video_frames := []
  is_upload_mode := false
  video_upload_completed := false
  video_queue_index := 0
  video_total_frames := 0

/-- `ConnectionManager.connect(user_id, websocket, max_queue_size)`
(lines 24-51). -/
def connect {α : Type} (m : ConnMgr α) (uid : Nat) (wsId : Nat)
    (max_queue_size : Nat) : ConnectResult α :=
  if 0 < max_queue_size ∧ max_queue_size ≤ get_user_count m then
    { raised := true
      state := m
      events := [WsMsg.accept, WsMsg.errorServerFull, WsMsg.closeTransport] }
  else
    { raised := false
      state := setSession m uid (freshSession wsId)
      events := [WsMsg.accept, WsMsg.connected, WsMsg.waitMsg,
        WsMsg.send_frame] }

/-- `ConnectionManager.update_data(user_id, new_data)` (lines 56-65): drain
the params queue with `get_nowait` until empty, then `put(new_data)`. -/
def update_data {α : Type} (m : ConnMgr α) (uid : Nat) (new_data : α) :
    ConnMgr α :=
  match getSession m uid with
  | none => m
  | some s => setSession m uid { s with queue := [new_data] }

/-- `ConnectionManager.get_latest_data(user_id)` (lines 67-74): `none` when
the session is missing or when `await queue.get()` would suspend. -/
def get_latest_data {α : Type} (m : ConnMgr α) (uid : Nat) :
    Option α × ConnMgr α :=
  match getSession m uid with
  | none => (none, m)
  | some s =>
      match s.queue with
      | [] => (none, m)
      | v :: rest => (some v, setSession m uid { s with queue := rest })

/-- `ConnectionManager.get_websocket(user_id)` (lines 96-102). -/
def get_websocket {α : Type} (m : ConnMgr α) (uid : Nat) : Option Nat :=
  match getSession m uid with
  | none => none
  | some s => if s.ws_connected then some s.websocket else none

/-- `ConnectionManager.put_frames_to_output_queue(user_id, frames)`
(lines 161-171); `none` means a `put` inside the loop suspended the writer. -/
def put_frames_to_output_queue {α : Type} (m : ConnMgr α) (uid : Nat)
    (frames : List α) : Option (ConnMgr α) :=
  match getSession m uid with
  | none => some m
  | some s =>
      (put_frames_list s.output_maxsize s.output_queue frames).map
        fun q => setSession m uid { s with output_queue := q }

/-- How `await self.conn_manager.get_frame(user_id)` behaves. -/
inductive FrameResult (α : Type) where
  /-- The session is missing: `get_frame` returns `None` at once. -/
  | noneImmediate
  /-- `await queue.get()` on an empty output queue: the call suspends. -/
  | suspended
  /-- A frame was popped from the output queue. -/
  | frame (f : α)
  deriving Repr, DecidableEq

/-- `ConnectionManager.get_frame(user_id)` (lines 173-178). -/
def get_frame {α : Type} (m : ConnMgr α) (uid : Nat) :
    FrameResult α × ConnMgr α :=
  match getSession m uid with
  | none => (FrameResult.noneImmediate, m)
  | some s =>
      match s.output_queue with
      | [] => (FrameResult.suspended, m)
      | f :: rest =>
          (FrameResult.frame f, setSession m uid { s with output_queue := rest })

/-- `ConnectionManager.get_output_queue_size(user_id)` (lines 180-185). -/
def get_output_queue_size {α : Type} (m : ConnMgr α) (uid : Nat) : Nat :=
  match getSession m uid with
  | none => 0
  | some s => s.output_queue.length

/-- `ConnectionManager.set_upload_mode(user_id, is_upload)` (lines 188-203). -/
def set_upload_mode {α : Type} (m : ConnMgr α) (uid : Nat) (is_upload : Bool) :
    ConnMgr α :=
  match getSession m uid with
  | none => m
  | some s =>
      if is_upload then
        setSession m uid
          { s with
            is_upload_mode := true
            video_frames := []
            video_queue_index := 0
            video_total_frames := 0
            video_upload_completed := false
            video_frame_queue := [] }
      else
        setSession m uid { s with is_upload_mode := false }

/-- `ConnectionManager.add_video_frame(user_id, frame_data)` (lines 219-226):
append to the retained buffer, refresh the total, enqueue for processing. -/
def add_video_frame {α : Type} (m : ConnMgr α) (uid : Nat) (frame_data : α) :
    ConnMgr α :=
  match getSession m uid with
  | none => m
  | some s =>
      if s.is_upload_mode then
        setSession m uid
          { s with
            video_frames := s.video_frames ++ [frame_data]
            video_total_frames := (s.video_frames ++ [frame_data]).length
            video_frame_queue := s.video_frame_queue ++ [frame_data] }
      else m

/-- The refill step of `get_next_video_frame` (lines 234-239): if the video
frame queue is empty and the retained buffer is not, re-enqueue the entire
buffer in original order and reset the cursor. -/
def refillIfEmpty {α : Type} (s : Session α) : Session α :=
  if s.video_frame_queue.isEmpty ∧ ¬ s.video_frames.isEmpty then
    { s with
      video_frame_queue := s.video_frame_queue ++ s.video_frames
      video_queue_index := 0 }
  else s

/-- The pop step of `get_next_video_frame` (lines 241-249): pop the head if
the queue is non-empty and advance the cursor, otherwise return `None`. -/
def popVideoFrame {α : Type} (m : ConnMgr α) (uid : Nat) (s1 : Session α) :
    Option α × ConnMgr α :=
  match s1.video_frame_queue with
  | [] => (none, setSession m uid s1)
  | f :: rest =>
      (some f,
        setSession m uid
          { s1 with
            video_frame_queue := rest
            video_queue_index := s1.video_queue_index + 1 })

/-- `ConnectionManager.get_next_video_frame(user_id)` (lines 229-249). -/
def get_next_video_frame {α : Type} (m : ConnMgr α) (uid : Nat) :
    Option α × ConnMgr α :=
  match getSession m uid with
  | none => (none, m)
  | some s =>
      if s.is_upload_mode then popVideoFrame m uid (refillIfEmpty s)
      else (none, m)

/-- Run `get_next_video_frame` `n` times, collecting the returned frames. -/
def getNextVideoFrames {α : Type} (m : ConnMgr α) (uid : Nat) :
    Nat → List (Option α) × ConnMgr α
  | 0 => ([], m)
  | n + 1 =>
      let r := get_next_video_frame m uid
      let rest := getNextVideoFrames r.2 uid n
      (r.1 :: rest.1, rest.2)

/-! ### The output pacer of `generate` (main.py lines 303-329)

Float arithmetic is modelled over `ℚ`. -/

def MIN_FPS : ℚ := 5

def MAX_FPS : ℚ := 30

def SMOOTHING : ℚ := 8 / 10

/-- The pacing state threaded through the `while True` loop of `generate`. -/
structure PacerState where
  last_queue_size : Nat
  ema_frame_interval : ℚ
  sleep_time : ℚ
  deriving Repr, DecidableEq

/-- `sleep_time = min(max(ema_frame_interval, 1 / MAX_FPS), 1 / MIN_FPS)`
(main.py line 325). -/
def clampSleep (e : ℚ) : ℚ := min (max e (1 / MAX_FPS)) (1 / MIN_FPS)

/-- One pass of the pacing logic at the top of the `generate` loop
(main.py lines 317-329), given the observed queue size and the wall-clock
time elapsed since the last burst. -/
def pacerStep (st : PacerState) (queue_size : Nat) (elapsed : ℚ) :
    PacerState :=
  if st.last_queue_size < queue_size then
    if 0 < queue_size ∧ 0 < elapsed then
      let raw_interval := elapsed / (queue_size : ℚ)
      let ema := SMOOTHING * st.ema_frame_interval +
        (1 - SMOOTHING) * raw_interval
      { last_queue_size := queue_size
        ema_frame_interval := ema
        sleep_time := clampSleep ema }
    else { st with last_queue_size := queue_size }
  else { st with last_queue_size := queue_size }

/-- How the `generate` loop body reacts to the value returned by
`await self.conn_manager.get_frame(user_id)` (main.py lines 330-333):
`false` means the loop breaks, `true` means the frame is yielded and the
loop continues. -/
def generateLoopContinues {α : Type} (frame : Option α) : Bool :=
  match frame with
  | none => false
  | some _ => true

/-! ### Deadline-miss rate (`App._log_metrics_to_file`, main.py lines 505-513) -/

/-- `np.sum(latencies > deadline)`: the number of latencies strictly above
the deadline. -/
def missed_count (latencies : List ℚ) (deadline : ℚ) : Nat :=
  (latencies.filter fun x => deadline < x).length

/-- `deadline_miss_rate`: `missed / len(latencies)` when the list is
non-empty, `0.0` otherwise (main.py line 510). -/
def deadline_miss_rate (latencies : List ℚ) (deadline : ℚ) : ℚ :=
  if 0 < latencies.length then
    (missed_count latencies deadline : ℚ) / (latencies.length : ℚ)
  else 0

/-- A session in upload mode with the given upload buffer, video frame
queue, cursor, total and completion flag (used to track the states the
upload loop walks through). -/
def uploadState {α : Type} (s : Session α) (frames queue : List α)
    (idx total : Nat) (completed : Bool) : Session α :=
  { s with
    is_upload_mode := true
    video_frames := frames
    video_frame_queue := queue
    video_queue_index := idx
    video_total_frames := total
    video_upload_completed := completed }

/-- Every registered session keeps `video_total_frames` equal to the length
of its `video_frames` buffer. -/
abbrev video_total_inv {α : Type} (m : ConnMgr α) : Prop :=
  ∀ p ∈ m, (p.2).video_total_frames = (p.2).video_frames.length

/-! ### Registry lemmas -/

theorem getSession_setSession_same {α : Type} (m : ConnMgr α) (uid : Nat)
    (s : Session α) : getSession (setSession m uid s) uid = some s := by
  induction m with
  | nil => simp [setSession, getSession]
  | cons p rest ih =>
      obtain ⟨k, t⟩ := p
      by_cases h : k = uid <;> simp [setSession, getSession, h, ih]

theorem getSession_setSession_ne {α : Type} (m : ConnMgr α) (uid u : Nat)
    (s : Session α) (h : u ≠ uid) :
    getSession (setSession m uid s) u = getSession m u := by
  have h' : uid ≠ u := fun e => h e.symm
  induction m with
  | nil => simp [setSession, getSession, h']
  | cons p rest ih =>
      obtain ⟨k, t⟩ := p
      by_cases hk : k = uid
      · subst hk
        simp [setSession, getSession, h']
      · simp [setSession, getSession, hk, ih]

theorem setSession_setSession {α : Type} (m : ConnMgr α) (uid : Nat)
    (s₁ s₂ : Session α) :
    setSession (setSession m uid s₁) uid s₂ = setSession m uid s₂ := by
  induction m with
  | nil => simp [setSession]
  | cons p rest ih =>
      obtain ⟨k, t⟩ := p
      by_cases h : k = uid <;> simp [setSession, h, ih]

theorem getSession_mem {α : Type} :
    ∀ (m : ConnMgr α) (uid : Nat) (s : Session α),
      getSession m uid = some s → (uid, s) ∈ m
  | [], _, _, h => by simp [getSession] at h
  | (k, t) :: rest, uid, s, h => by
      by_cases hk : k = uid
      · subst hk
        rw [getSession, if_pos rfl] at h
        cases h
        exact List.mem_cons_self _ _
      · rw [getSession, if_neg hk] at h
        exact List.mem_cons_of_mem _ (getSession_mem rest uid s h)

theorem video_total_inv_setSession {α : Type} (m : ConnMgr α) (uid : Nat)
    (s : Session α) (hm : video_total_inv m)
    (hs : s.video_total_frames = s.video_frames.length) :
    video_total_inv (setSession m uid s) := by
  induction m with
  | nil =>
      intro p hp
      simp only [setSession, List.mem_singleton] at hp
      subst hp
      exact hs
  | cons q rest ih =>
      obtain ⟨k, t⟩ := q
      intro p hp
      by_cases hk : k = uid
      · simp only [setSession, if_pos hk] at hp
        rcases List.mem_cons.mp hp with h1 | h2
        · subst h1
          exact hs
        · exact hm p (List.mem_cons_of_mem _ h2)
      · simp only [setSession, if_neg hk] at hp
        rcases List.mem_cons.mp hp with h1 | h2
        · subst h1
          exact hm _ (List.mem_cons_self _ _)
        · exact ih (fun r hr => hm r (List.mem_cons_of_mem _ hr)) p h2

/-! ### Queue-discipline lemmas -/

theorem pushFrameDrop_eq {α : Type} (c : Nat) (q : List α) (f : α)
    (hc : 0 < c) (hq : q.length ≤ c) :
    pushFrameDrop c q f = some ((q ++ [f]).drop (q.length + 1 - c)) := by
  by_cases hfull : c ≤ q.length
  · have hqc : q.length = c := le_antisymm hq hfull
    have hne : q ≠ [] := by
      intro h
      subst h
      simp only [List.length_nil] at hqc
      omega
    obtain ⟨x, xs, rfl⟩ := List.exists_cons_of_ne_nil hne
    have hfq : queue_full c (x :: xs) = true := by
      simp only [queue_full, decide_eq_true_eq]
      exact ⟨hc, hfull⟩
    have hxs : xs.length + 1 = c := by simpa using hqc
    have hft : queue_full c xs = false := by
      simp only [queue_full, decide_eq_false_iff_not, not_and, not_le]
      intro _
      omega
    have hd : (x :: xs).length + 1 - c = 1 := by
      simp only [List.length_cons]
      omega
    rw [hd]
    simp [pushFrameDrop, queue_put, hfq, hft]
  · have hfq : queue_full c q = false := by
      simp only [queue_full, decide_eq_false_iff_not, not_and, not_le]
      intro _
      omega
    have hd : q.length + 1 - c = 0 := by omega
    simp [pushFrameDrop, queue_put, hfq, hd]

theorem pushFrameDrop_len {α : Type} (c : Nat) (q : List α) (f : α)
    (_hc : 0 < c) (hq : q.length ≤ c) :
    ((q ++ [f]).drop (q.length + 1 - c)).length ≤ c := by
  rw [List.length_drop]
  simp only [List.length_append, List.length_cons, List.length_nil]
  omega

/-- Drop-oldest characterisation of the push loop: starting from a queue of at
most `c` elements, pushing `fs` never blocks and leaves the last `c` elements
of `q ++ fs`. -/
theorem put_frames_list_eq {α : Type} (c : Nat) (fs : List α) :
    ∀ q : List α, 0 < c → q.length ≤ c →
      put_frames_list c q fs = some ((q ++ fs).drop (q.length + fs.length - c)) := by
  induction fs with
  | nil =>
      intro q hc hq
      have hz : q.length - c = 0 := by omega
      simp [put_frames_list, hz]
  | cons f fs ih =>
      intro q hc hq
      have hlen : ((q ++ [f]).drop (q.length + 1 - c)).length ≤ c :=
        pushFrameDrop_len c q f hc hq
      rw [put_frames_list, pushFrameDrop_eq c q f hc hq, Option.some_bind,
        ih _ hc hlen]
      congr 1
      rw [← List.drop_append_of_le_length, List.drop_drop]
      · rw [List.append_assoc, List.singleton_append]
        congr 1
        simp only [List.length_drop, List.length_append, List.length_cons,
          List.length_nil]
        omega
      · simp only [List.length_append, List.length_cons, List.length_nil]
        omega

theorem refillIfEmpty_video_frames {α : Type} (s : Session α) :
    (refillIfEmpty s).video_frames = s.video_frames ∧
    (refillIfEmpty s).video_total_frames = s.video_total_frames := by
  by_cases h : s.video_frame_queue.isEmpty = true ∧ ¬ s.video_frames.isEmpty = true
  · rw [refillIfEmpty, if_pos h]
    exact ⟨rfl, rfl⟩
  · rw [refillIfEmpty, if_neg h]
    exact ⟨rfl, rfl⟩

theorem video_total_inv_popVideoFrame {α : Type} (m : ConnMgr α) (uid : Nat)
    (s1 : Session α) (hm : video_total_inv m)
    (h1 : s1.video_total_frames = s1.video_frames.length) :
    video_total_inv (popVideoFrame m uid s1).2 := by
  rw [popVideoFrame]
  cases hq : s1.video_frame_queue with
  | nil => exact video_total_inv_setSession m uid _ hm h1
  | cons f rest => exact video_total_inv_setSession m uid _ hm h1

/-! ### The claims -/

/-- C10: each of `connect`, `set_upload_mode`, `add_video_frame` and
`get_next_video_frame` preserves the invariant that every registered
session's `video_total_frames` equals the length of its `video_frames`
buffer. -/
theorem C10_video_total_invariant {α : Type} (m : ConnMgr α)
    (hm : video_total_inv m) :
    (∀ uid wsId maxq, video_total_inv (connect m uid wsId maxq).state) ∧
    (∀ uid b, video_total_inv (set_upload_mode m uid b)) ∧
    (∀ uid f, video_total_inv (add_video_frame m uid f)) ∧
    (∀ uid, video_total_inv (get_next_video_frame m uid).2) := by
  refine ⟨?_, ?_, ?_, ?_⟩
  · intro uid wsId maxq
    rw [connect]
    by_cases hcond : 0 < maxq ∧ maxq ≤ get_user_count m
    · rw [if_pos hcond]
      exact hm
    · rw [if_neg hcond]
      exact video_total_inv_setSession m uid _ hm rfl
  · intro uid b
    simp only [set_upload_mode]
    cases hg : getSession m uid with
    | none => exact hm
    | some s =>
        have hsf : s.video_total_frames = s.video_frames.length :=
          hm _ (getSession_mem m uid s hg)
        cases b
        · exact video_total_inv_setSession m uid _ hm hsf
        · exact video_total_inv_setSession m uid _ hm rfl
  · intro uid f
    cases hg : getSession m uid with
    | none => simp only [add_video_frame, hg]; exact hm
    | some s =>
        simp only [add_video_frame, hg]
        by_cases hup : s.is_upload_mode = true
        · rw [if_pos hup]
          exact video_total_inv_setSession m uid _ hm rfl
        · rw [if_neg hup]
          exact hm
  · intro uid
    cases hg : getSession m uid with
    | none => simp only [get_next_video_frame, hg]; exact hm
    | some s =>
        have hsf : s.video_total_frames = s.video_frames.length :=
          hm _ (getSession_mem m uid s hg)
        simp only [get_next_video_frame, hg]
        by_cases hup : s.is_upload_mode = true
        · rw [if_pos hup]
          refine video_total_inv_popVideoFrame m uid _ hm ?_
          rw [(refillIfEmpty_video_frames s).1, (refillIfEmpty_video_frames s).2]
          exact hsf
        · rw [if_neg hup]
          exact hm

/-- Witness for C10: the invariant holds on a one-session registry and is
preserved by a concrete `add_video_frame`. -/
theorem C10_video_total_invariant_witness :
    video_total_inv
      (add_video_frame
        ([(0, { freshSession 7 with is_upload_mode := true })] : ConnMgr Nat)
        0 4) :=
  (C10_video_total_invariant
      [(0, { freshSession 7 with is_upload_mode := true })]
      (by decide)).2.2.1 0 4

/-- C1: for a session whose output queue is bounded at capacity `c > 0` and
currently holds at most `c` frames, pushing `c + k` frames (`k > 0`) via
`put_frames_to_output_queue` never blocks the writer and leaves exactly the
last `c` frames pushed, in their original relative order (drop-oldest). -/
theorem C1_put_frames_drop_oldest {α : Type} (m : ConnMgr α) (uid : Nat)
    (s : Session α) (c k : Nat) (frames : List α)
    (hs : getSession m uid = some s)
    (hcap : s.output_maxsize = c) (hc : 0 < c)
    (hq : s.output_queue.length ≤ c)
    (hlen : frames.length = c + k) (hk : 0 < k) :
    put_frames_to_output_queue m uid frames =
      some (setSession m uid { s with output_queue := frames.drop k }) ∧
    (frames.drop k).length = c := by
  have hc' : 0 < s.output_maxsize := by omega
  have hq' : s.output_queue.length ≤ s.output_maxsize := by omega
  have hidx : s.output_queue.length + frames.length - s.output_maxsize
      = s.output_queue.length + k := by omega
  have hX : (s.output_queue ++ frames).drop
      (s.output_queue.length + frames.length - s.output_maxsize)
      = frames.drop k := by
    rw [hidx, ← List.drop_drop, List.drop_left]
  constructor
  · simp only [put_frames_to_output_queue, hs]
    rw [put_frames_list_eq s.output_maxsize frames s.output_queue hc' hq',
      Option.map_some', hX]
  · rw [List.length_drop]
    omega

/-- Witness for C1: a session with a capacity-2 output queue receives 3
frames and retains the last 2. -/
theorem C1_put_frames_drop_oldest_witness :
    put_frames_to_output_queue
        ([(0, { freshSession 7 with output_maxsize := 2 })] : ConnMgr Nat)
        0 [10, 20, 30] =
      some (setSession
        ([(0, { freshSession 7 with output_maxsize := 2 })] : ConnMgr Nat) 0
        { ({ freshSession 7 with output_maxsize := 2 } : Session Nat) with
            output_queue := [10, 20, 30].drop 1 }) ∧
    (([10, 20, 30] : List Nat).drop 1).length = 2 :=
  C1_put_frames_drop_oldest _ 0 _ 2 1 _ rfl rfl (by decide) (by decide) rfl
    (by decide)

/-- C2: with `max_queue_size = N > 0` and `N` registered sessions, `connect`
for a new id accepts the socket, notifies the client, closes the transport
and raises `ServerFullException`, leaving the registry untouched; with
`max_queue_size = 0` the capacity check never fires. -/
theorem C2_connect_capacity {α : Type} :
    (∀ (m : ConnMgr α) (uid wsId N : Nat), 0 < N → get_user_count m = N →
      connect m uid wsId N =
        { raised := true
          state := m
          events := [WsMsg.accept, WsMsg.errorServerFull,
            WsMsg.closeTransport] }) ∧
    (∀ (m : ConnMgr α) (uid wsId : Nat),
      (connect m uid wsId 0).raised = false ∧
      getSession (connect m uid wsId 0).state uid =
        some (freshSession wsId)) := by
  constructor
  · intro m uid wsId N hN hcount
    rw [connect, if_pos ⟨hN, by omega⟩]
  · intro m uid wsId
    rw [connect, if_neg (by simp)]
    exact ⟨rfl, getSession_setSession_same m uid (freshSession wsId)⟩

/-- Witness for C2: one registered session, `max_queue_size = 1`, a second
connect is refused with the three transport events; with the limit 0 the
same connect succeeds. -/
theorem C2_connect_capacity_witness :
    (connect ([(0, freshSession 7)] : ConnMgr Nat) 1 8 1 =
      { raised := true
        state := [(0, freshSession 7)]
        events := [WsMsg.accept, WsMsg.errorServerFull,
          WsMsg.closeTransport] }) ∧
    ((connect ([(0, freshSession 7)] : ConnMgr Nat) 1 8 0).raised = false ∧
      getSession (connect ([(0, freshSession 7)] : ConnMgr Nat) 1 8 0).state 1 =
        some (freshSession 8)) :=
  ⟨(C2_connect_capacity (α := Nat)).1 [(0, freshSession 7)] 1 8 1 (by decide)
      rfl,
    (C2_connect_capacity (α := Nat)).2 [(0, freshSession 7)] 1 8⟩

/-- C5: the deadline-miss rate is the number of latencies strictly above the
target divided by the number of latencies; on `[0.1, 0.2, 0.35, 0.5]` with
target `0.3` it is `0.5`. -/
theorem C5_deadline_miss_rate_eq :
    (∀ (l : List ℚ) (d : ℚ), l ≠ [] →
      deadline_miss_rate l d =
        ((l.filter fun x => d < x).length : ℚ) / (l.length : ℚ)) ∧
    deadline_miss_rate [1/10, 2/10, 35/100, 5/10] (3/10) = 1/2 := by
  constructor
  · intro l d hl
    rw [deadline_miss_rate, if_pos (List.length_pos.mpr hl)]
    rfl
  · norm_num [deadline_miss_rate, missed_count, List.filter]

/-- Witness for C5: the general formula applied to the concrete latency
list of the claim. -/
theorem C5_deadline_miss_rate_witness :
    deadline_miss_rate [1/10, 2/10, 35/100, 5/10] (3/10) =
      ((([1/10, 2/10, 35/100, 5/10] : List ℚ).filter
          fun x => (3:ℚ)/10 < x).length : ℚ) /
        (([1/10, 2/10, 35/100, 5/10] : List ℚ).length : ℚ) :=
  C5_deadline_miss_rate_eq.1 [1/10, 2/10, 35/100, 5/10] (3/10) (by decide)

/-- C6: the pacer's emission delay is the smoothed estimate clamped to
`[1/30, 1/5]` (`0.01 ↦ 1/30`, `1.0 ↦ 1/5`), and whenever the output queue
size increases (with positive elapsed time) the estimate is updated by
`new = 0.8 * old + 0.2 * raw`. -/
theorem C6_pacer_clamp_and_ema :
    clampSleep (1/100) = 1/30 ∧ clampSleep 1 = 1/5 ∧
    (∀ (st : PacerState) (qs : Nat) (elapsed : ℚ),
      st.last_queue_size < qs → 0 < elapsed →
      (pacerStep st qs elapsed).ema_frame_interval =
        (8/10) * st.ema_frame_interval + (2/10) * (elapsed / (qs : ℚ)) ∧
      (pacerStep st qs elapsed).sleep_time =
        clampSleep ((8/10) * st.ema_frame_interval +
          (2/10) * (elapsed / (qs : ℚ)))) := by
  refine ⟨?_, ?_, ?_⟩
  · norm_num [clampSleep, MAX_FPS, MIN_FPS]
  · norm_num [clampSleep, MAX_FPS, MIN_FPS]
  · intro st qs elapsed hqs helapsed
    have hq0 : 0 < qs := by omega
    rw [pacerStep, if_pos hqs, if_pos ⟨hq0, helapsed⟩]
    norm_num [SMOOTHING]

/-- Witness for C6: a queue growth from 0 to 2 over 1 second updates the
estimate to `0.8 * 0.05 + 0.2 * 0.5` and clamps it. -/
theorem C6_pacer_clamp_and_ema_witness :
    (pacerStep ⟨0, 5/100, 5/100⟩ 2 1).ema_frame_interval =
      (8/10) * (5/100) + (2/10) * ((1:ℚ) / ((2:Nat) : ℚ)) ∧
    (pacerStep ⟨0, 5/100, 5/100⟩ 2 1).sleep_time =
      clampSleep ((8/10) * (5/100) + (2/10) * ((1:ℚ) / ((2:Nat) : ℚ))) :=
  C6_pacer_clamp_and_ema.2.2 ⟨0, 5/100, 5/100⟩ 2 1 (by decide) (by norm_num)

/-- C4: after entering upload mode and ingesting frames `[f0, f1, f2]` via
`add_video_frame`, six successive `get_next_video_frame` calls return
`[f0, f1, f2, f0, f1, f2]`: when the queue runs empty the retained buffer
refills it in original order before popping; and for a registered
upload-mode session a `None` answer is possible only when the retained
buffer is empty. -/
theorem C4_upload_loop_replay {α : Type} (m : ConnMgr α) (uid : Nat)
    (s : Session α) (f0 f1 f2 : α) (hs : getSession m uid = some s) :
    (getNextVideoFrames
        (add_video_frame (add_video_frame (add_video_frame
          (set_upload_mode m uid true) uid f0) uid f1) uid f2) uid 6).1 =
      [some f0, some f1, some f2, some f0, some f1, some f2] ∧
    (∀ (n : ConnMgr α) (u : Nat) (t : Session α),
      getSession n u = some t → t.is_upload_mode = true →
      t.video_frames ≠ [] → (get_next_video_frame n u).1 ≠ none) := by
  constructor
  · have h0 : set_upload_mode m uid true =
        setSession m uid (uploadState s [] [] 0 0 false) := by
      simp [set_upload_mode, hs, uploadState]
    have h1 : add_video_frame
          (setSession m uid (uploadState s [] [] 0 0 false)) uid f0 =
        setSession m uid (uploadState s [f0] [f0] 0 1 false) := by
      simp [add_video_frame, getSession_setSession_same, setSession_setSession,
        uploadState]
    have h2 : add_video_frame
          (setSession m uid (uploadState s [f0] [f0] 0 1 false)) uid f1 =
        setSession m uid (uploadState s [f0, f1] [f0, f1] 0 2 false) := by
      simp [add_video_frame, getSession_setSession_same, setSession_setSession,
        uploadState]
    have h3 : add_video_frame
          (setSession m uid (uploadState s [f0, f1] [f0, f1] 0 2 false))
          uid f2 =
        setSession m uid
          (uploadState s [f0, f1, f2] [f0, f1, f2] 0 3 false) := by
      simp [add_video_frame, getSession_setSession_same, setSession_setSession,
        uploadState]
    have hpop : ∀ (fr rest : List α) (i tot : Nat) (f : α),
        get_next_video_frame
            (setSession m uid (uploadState s fr (f :: rest) i tot false))
            uid =
          (some f,
            setSession m uid (uploadState s fr rest (i + 1) tot false)) := by
      intro fr rest i tot f
      simp [get_next_video_frame, getSession_setSession_same, refillIfEmpty,
        popVideoFrame, setSession_setSession, uploadState]
    have hrefill : ∀ (f : α) (fr : List α) (i tot : Nat),
        get_next_video_frame
            (setSession m uid (uploadState s (f :: fr) [] i tot false)) uid =
          (some f,
            setSession m uid (uploadState s (f :: fr) fr 1 tot false)) := by
      intro f fr i tot
      simp [get_next_video_frame, getSession_setSession_same, refillIfEmpty,
        popVideoFrame, setSession_setSession, uploadState]
    rw [h0, h1, h2, h3, show (6 : Nat) = 0+1+1+1+1+1+1 from rfl]
    simp only [getNextVideoFrames, hpop, hrefill]
  · intro n u t hg hup hvf
    obtain ⟨a, l, hv⟩ := List.exists_cons_of_ne_nil hvf
    by_cases hq : t.video_frame_queue = []
    · simp [get_next_video_frame, hg, hup, refillIfEmpty, popVideoFrame,
        hq, hv]
    · obtain ⟨b, k, hqv⟩ := List.exists_cons_of_ne_nil hq
      simp [get_next_video_frame, hg, hup, refillIfEmpty, popVideoFrame,
        hqv, hv]

/-- Witness for C4: a fresh session uploads `[11, 12, 13]` and six reads
replay the clip twice. -/
theorem C4_upload_loop_replay_witness :
    (getNextVideoFrames
        (add_video_frame (add_video_frame (add_video_frame
          (set_upload_mode ([(0, freshSession 7)] : ConnMgr Nat) 0 true)
          0 11) 0 12) 0 13) 0 6).1 =
      [some 11, some 12, some 13, some 11, some 12, some 13] :=
  (C4_upload_loop_replay [(0, freshSession 7)] 0 (freshSession 7)
    11 12 13 rfl).1

/-- C3: writing `v1` then `v2` through `update_data` with no intervening read
discards `v1`; the next `get_latest_data` returns exactly `v2` leaving the
slot empty, and a further read finds no value until the next write. -/
theorem C3_latest_value_overwrite {α : Type} (m : ConnMgr α) (uid : Nat)
    (s : Session α) (v1 v2 : α) (hs : getSession m uid = some s) :
    get_latest_data (update_data (update_data m uid v1) uid v2) uid =
      (some v2, setSession m uid { s with queue := [] }) ∧
    get_latest_data (setSession m uid { s with queue := [] }) uid =
      (none, setSession m uid { s with queue := [] }) := by
  constructor
  · simp [update_data, get_latest_data, hs, getSession_setSession_same,
      setSession_setSession]
  · simp [get_latest_data, getSession_setSession_same]

/-- Witness for C3: two writes then two reads on a concrete session. -/
theorem C3_latest_value_overwrite_witness :
    get_latest_data
        (update_data (update_data ([(0, freshSession 7)] : ConnMgr Nat) 0 1)
          0 2) 0 =
      (some 2,
        setSession ([(0, freshSession 7)] : ConnMgr Nat) 0
          { (freshSession 7 : Session Nat) with queue := [] }) ∧
    get_latest_data
        (setSession ([(0, freshSession 7)] : ConnMgr Nat) 0
          { (freshSession 7 : Session Nat) with queue := [] }) 0 =
      (none,
        setSession ([(0, freshSession 7)] : ConnMgr Nat) 0
          { (freshSession 7 : Session Nat) with queue := [] }) :=
  C3_latest_value_overwrite [(0, freshSession 7)] 0 (freshSession 7) 1 2 rfl

/-- C7: every `ConnectionManager` operation on an unregistered id is a no-op
or returns an empty/default result and never raises: `update_data` writes
nothing, `get_frame` and `get_websocket` return `None`,
`get_output_queue_size` returns `0`, `set_upload_mode` and
`put_frames_to_output_queue` change no state, and the registry is
unchanged. -/
theorem C7_absent_session_noop {α : Type} (m : ConnMgr α) (uid : Nat)
    (v : α) (frames : List α) (b : Bool)
    (h : getSession m uid = none) :
    update_data m uid v = m ∧
    get_frame m uid = (FrameResult.noneImmediate, m) ∧
    get_websocket m uid = none ∧
    get_output_queue_size m uid = 0 ∧
    set_upload_mode m uid b = m ∧
    put_frames_to_output_queue m uid frames = some m := by
  refine ⟨?_, ?_, ?_, ?_, ?_, ?_⟩ <;>
    simp [update_data, get_frame, get_websocket, get_output_queue_size,
      set_upload_mode, put_frames_to_output_queue, h]

/-- Witness for C7: the operations applied to an id that was never
registered. -/
theorem C7_absent_session_noop_witness :
    update_data ([(0, freshSession 7)] : ConnMgr Nat) 5 9 =
      [(0, freshSession 7)] ∧
    get_frame ([(0, freshSession 7)] : ConnMgr Nat) 5 =
      (FrameResult.noneImmediate, [(0, freshSession 7)]) ∧
    get_websocket ([(0, freshSession 7)] : ConnMgr Nat) 5 = none ∧
    get_output_queue_size ([(0, freshSession 7)] : ConnMgr Nat) 5 = 0 ∧
    set_upload_mode ([(0, freshSession 7)] : ConnMgr Nat) 5 true =
      [(0, freshSession 7)] ∧
    put_frames_to_output_queue ([(0, freshSession 7)] : ConnMgr Nat) 5 [1, 2] =
      some [(0, freshSession 7)] :=
  C7_absent_session_noop [(0, freshSession 7)] 5 9 [1, 2] true rfl

/-- C8: `set_upload_mode(id, true)` sets the flag and clears the upload
buffer, cursor, total, completion flag and the video frame queue, leaving
every other field intact; `set_upload_mode(id, false)` changes only the
`is_upload_mode` flag. -/
theorem C8_set_upload_mode_clears {α : Type} (m : ConnMgr α) (uid : Nat)
    (s : Session α) (hs : getSession m uid = some s) :
    getSession (set_upload_mode m uid true) uid =
      some { s with
        is_upload_mode := true
        video_frames := []
        video_queue_index := 0
        video_total_frames := 0
        video_upload_completed := false
        video_frame_queue := [] } ∧
    getSession (set_upload_mode m uid false) uid =
      some { s with is_upload_mode := false } := by
  constructor <;>
    simp [set_upload_mode, hs, getSession_setSession_same]

/-- Witness for C8: a session with populated upload state is cleared on
entering upload mode and only loses the flag on leaving it. -/
theorem C8_set_upload_mode_clears_witness :
    getSession
        (set_upload_mode
          ([(0, { freshSession 7 with
              is_upload_mode := true
              video_frames := [4, 5]
              video_queue_index := 2
              video_total_frames := 2
              video_upload_completed := true
              video_frame_queue := [5] })] : ConnMgr Nat) 0 true) 0 =
      some { ({ freshSession 7 with
          is_upload_mode := true
          video_frames := [4, 5]
          video_queue_index := 2
          video_total_frames := 2
          video_upload_completed := true
          video_frame_queue := [5] } : Session Nat) with
        is_upload_mode := true
        video_frames := []
        video_queue_index := 0
        video_total_frames := 0
        video_upload_completed := false
        video_frame_queue := [] } ∧
    getSession
        (set_upload_mode
          ([(0, { freshSession 7 with
              is_upload_mode := true
              video_frames := [4, 5]
              video_queue_index := 2
              video_total_frames := 2
              video_upload_completed := true
              video_frame_queue := [5] })] : ConnMgr Nat) 0 false) 0 =
      some { ({ freshSession 7 with
          is_upload_mode := true
          video_frames := [4, 5]
          video_queue_index := 2
          video_total_frames := 2
          video_upload_completed := true
          video_frame_queue := [5] } : Session Nat) with
        is_upload_mode := false } :=
  C8_set_upload_mode_clears _ 0 _ rfl

/-- C9: for an id absent from the registry `get_frame` returns `None`
immediately (it does not suspend on an output queue), and the `generate`
loop treats a `None` frame as end-of-stream and breaks. -/
theorem C9_absent_session_stream_ends {α : Type} (m : ConnMgr α) (uid : Nat)
    (h : getSession m uid = none) :
    get_frame m uid = (FrameResult.noneImmediate, m) ∧
    FrameResult.noneImmediate ≠ (FrameResult.suspended : FrameResult α) ∧
    generateLoopContinues (none : Option α) = false := by
  refine ⟨?_, by simp, rfl⟩
  simp [get_frame, h]

/-- Witness for C9: `get_frame` on a removed id against a one-session
registry. -/
theorem C9_absent_session_stream_ends_witness :
    get_frame ([(0, freshSession 7)] : ConnMgr Nat) 3 =
      (FrameResult.noneImmediate, [(0, freshSession 7)]) ∧
    FrameResult.noneImmediate ≠ (FrameResult.suspended : FrameResult Nat) ∧
    generateLoopContinues (none : Option Nat) = false :=
  C9_absent_session_stream_ends [(0, freshSession 7)] 3 rfl

end StreamDiffusion
